import Mathlib

/-!
Verification development for the MQTT relay backend
(`backend/app/services/mqtt_service.py`, `backend/app/models.py`,
`backend/config.py`).

Strings of the Python code are modelled as `List Char` (`Str`), so that the
character-level operations the code performs (`str.startswith`,
`str.split('/')`, string concatenation) are modelled exactly.  Database rows
are Lean structures mirroring the SQLAlchemy models; the session/commit
discipline is modelled by returning, for each message-handler run, the list of
successive committed database snapshots (one snapshot per
`db.session.commit()` call) together with the list of MQTT publishes
performed.
-/

set_option maxRecDepth 4000

abbrev Str := List Char

/-- Device class, mirroring the `type` enum column of `Device`
(`models.py`: `Enum('indoor', 'outdoor')`). -/
inductive DeviceClass where
  | indoor
  | outdoor
deriving DecidableEq

/-- Direction enum of `CommLog` (`models.py`: `Enum('receive', 'forward')`). -/
inductive Direction where
  | receive
  | forward
deriving DecidableEq

/-- Alarm type enum of `AlarmLog` (`models.py`: `Enum('alarm', 'cancel')`). -/
inductive AlarmType where
  | alarm
  | cancel
deriving DecidableEq

/-- A JSON scalar value as produced by Python `json.loads` for the payload
fields this service inspects (`bj`, `vbat`): Python int, float (modelled as an
exact rational), str, bool, None. -/
inductive JVal where
  | jint : Int → JVal
  | jnum : Rat → JVal
  | jstr : Str → JVal
  | jbool : Bool → JVal
  | jnull : JVal
deriving DecidableEq

/-- A device row (`models.py` class `Device`).  The `imei` column is declared
`unique=True` in the model.  Fields not read or written by the relay service
(`id`, `created_at`, `updated_at`) are omitted. -/
structure Device where
  imei : Str
  type : DeviceClass
  name : Str
  station_id : Option Nat
  last_seen : Option Nat
  vbat : Option JVal
deriving DecidableEq

/-- A communication-log row (`models.py` class `CommLog`). -/
structure CommLog where
  direction : Direction
  source_type : DeviceClass
  source_imei : Str
  target_type : Option DeviceClass
  target_imei : Option Str
  topic : Str
  payload : Str
  station_id : Option Nat
deriving DecidableEq

/-- An alarm-log row (`models.py` class `AlarmLog`).  The `outdoor_imeis`
column stores `json.dumps` of a list of IMEIs; it is modelled as the list
itself. -/
structure AlarmLog where
  station_id : Option Nat
  indoor_imei : Str
  alarm_type : AlarmType
  outdoor_imeis : List Str
  forward_status : Nat
deriving DecidableEq

/-- The relational store the service reads and writes: the three tables it
touches, each in insertion order. -/
structure DB where
  devices : List Device
  comm_logs : List CommLog
  alarm_logs : List AlarmLog
deriving DecidableEq

/-- An inbound MQTT payload.  `raw` is the verbatim payload text; `parsed`
models the result of the Python standard-library call `json.loads raw`
(`some` of the key/value mapping on success, `none` when the payload is not
parseable as JSON).  The two are carried together because the service both
republishes `raw` verbatim and inspects the parsed form. -/
structure Payload where
  raw : Str
  parsed : Option (List (Str × JVal))
deriving DecidableEq

/-- Result of running one message handler: the final database, the successive
committed snapshots (one per `db.session.commit()`), and the MQTT publishes
performed, in order. -/
structure RunResult where
  db : DB
  snapshots : List DB
  publishes : List (Str × Str)
deriving DecidableEq

/-! ## Topic codec (config.py prefixes, on_message parsing) -/

/-- `config.py`: `INDOOR_PUB_PREFIX = '/AIR8000/PUB/'`. -/
def INDOOR_PUB : Str := ['/', 'A', 'I', 'R', '8', '0', '0', '0', '/', 'P', 'U', 'B', '/']

/-- `config.py`: `INDOOR_SUB_PREFIX = '/AIR8000/SUB/'`. -/
def INDOOR_SUB : Str := ['/', 'A', 'I', 'R', '8', '0', '0', '0', '/', 'S', 'U', 'B', '/']

/-- `config.py`: `OUTDOOR_PUB_PREFIX = '/780EHV/PUB/'`. -/
def OUTDOOR_PUB : Str := ['/', '7', '8', '0', 'E', 'H', 'V', '/', 'P', 'U', 'B', '/']

/-- `config.py`: `OUTDOOR_SUB_PREFIX = '/780EHV/SUB/'`. -/
def OUTDOOR_SUB : Str := ['/', '7', '8', '0', 'E', 'H', 'V', '/', 'S', 'U', 'B', '/']

/-- Helper for `pySplit`: returns the first separator-free group of the string
and the list of remaining groups. -/
def pySplitAux (sep : Char) : Str → Str × List Str
  | [] => ([], [])
  | c :: cs =>
    let r := pySplitAux sep cs
    if c = sep then ([], r.1 :: r.2) else (c :: r.1, r.2)

/-- Python `s.split(sep)` for a one-character separator: the list of (possibly
empty) groups between occurrences of `sep`; always nonempty. -/
def pySplit (sep : Char) (s : Str) : List Str :=
  (pySplitAux sep s).1 :: (pySplitAux sep s).2

/-- `mqtt_service.py` line 87/91: `imei = topic.split('/')[-1]` — the last
`/`-separated segment of the topic. -/
def lastSeg (topic : Str) : Str :=
  (pySplit '/' topic).getLastD []

/-- The topic-to-identity half of the topic codec, as performed by
`on_message` (lines 85–92): a topic is recognized iff it starts with a
class's publish prefix (indoor checked first), and the IMEI is extracted with
`topic.split('/')[-1]`. -/
def parseTopic (topic : Str) : Option (DeviceClass × Str) :=
  if INDOOR_PUB.isPrefixOf topic then some (DeviceClass.indoor, lastSeg topic)
  else if OUTDOOR_PUB.isPrefixOf topic then some (DeviceClass.outdoor, lastSeg topic)
  else none

/-- The identity-to-topic half of the codec for inbound (publish-side) topics,
as used when the service reconstructs the inbound topic
(`flask_app.config['INDOOR_PUB_PREFIX'] + imei`, lines 116 and 215): plain
prefix concatenation. -/
def buildPub : DeviceClass → Str → Str
  | DeviceClass.indoor, imei => INDOOR_PUB ++ imei
  | DeviceClass.outdoor, imei => OUTDOOR_PUB ++ imei

/-! ### Lemmas about the codec -/

theorem isPrefixOf_append_self (l t : Str) : l.isPrefixOf (l ++ t) = true := by
  induction l with
  | nil => simp [List.isPrefixOf]
  | cons a as ih => simp [List.isPrefixOf, ih]

theorem pySplitAux_append_sep (sep : Char) (xs ys : Str) :
    pySplitAux sep (xs ++ sep :: ys) =
      ((pySplitAux sep xs).1,
        (pySplitAux sep xs).2 ++ (pySplitAux sep ys).1 :: (pySplitAux sep ys).2) := by
  induction xs with
  | nil => simp [pySplitAux]
  | cons c cs ih =>
    by_cases hc : c = sep
    · simp [pySplitAux, hc, ih]
    · simp [pySplitAux, hc, ih]

theorem pySplit_append_sep (sep : Char) (xs ys : Str) :
    pySplit sep (xs ++ sep :: ys) = pySplit sep xs ++ pySplit sep ys := by
  simp [pySplit, pySplitAux_append_sep]

theorem pySplitAux_no_sep (sep : Char) (s : Str) (h : sep ∉ s) :
    pySplitAux sep s = (s, []) := by
  induction s with
  | nil => rfl
  | cons c cs ih =>
    simp only [List.mem_cons, not_or] at h
    simp [pySplitAux, Ne.symm h.1, ih h.2]

theorem pySplit_no_sep (sep : Char) (s : Str) (h : sep ∉ s) :
    pySplit sep s = [s] := by
  simp [pySplit, pySplitAux_no_sep sep s h]

theorem getLastD_append_cons (l₁ l₂ : List Str) (g : Str) :
    (l₁ ++ g :: l₂).getLastD [] = (g :: l₂).getLastD [] := by
  induction l₁ with
  | nil => rfl
  | cons x xs ih =>
    cases xs <;> cases l₂ <;> simp_all [List.getLastD]

theorem lastSeg_append_of_not_mem (body imei : Str) (h : '/' ∉ imei) :
    lastSeg (body ++ '/' :: imei) = imei := by
  unfold lastSeg
  rw [pySplit_append_sep, pySplit_no_sep '/' imei h]
  have : pySplit '/' body ++ [imei] = pySplit '/' body ++ imei :: [] := rfl
  rw [this, getLastD_append_cons]
  rfl

/-! ## Payload field access and Python value semantics -/

/-- Python dictionary key lookup on the parsed payload (`data['bj']`,
`data['vbat']`, with presence tested by `'bj' in data`). -/
def lookupKey (data : List (Str × JVal)) (k : Str) : Option JVal :=
  (data.find? (fun kv => decide (kv.1 = k))).map (fun kv => kv.2)

/-- The alarm-state payload key `'bj'` (`mqtt_service.py` line 169). -/
def bjKey : Str := ['b', 'j']

/-- The battery-voltage payload key `'vbat'` (`mqtt_service.py` line 203). -/
def vbatKey : Str := ['v', 'b', 'a', 't']

/-- Numeric value of a nonempty all-digit character list. -/
def digitsVal (cs : Str) : Option Nat :=
  if cs ≠ [] ∧ cs.all Char.isDigit then
    some (cs.foldl (fun n c => n * 10 + (c.toNat - '0'.toNat)) 0)
  else none

/-- Python `int(s)` on a string (standard library): strips surrounding
whitespace, accepts an optional sign followed by decimal digits; `none`
models the `ValueError` raised otherwise. -/
def pyInt (s : Str) : Option Int :=
  let t := ((s.dropWhile Char.isWhitespace).reverse.dropWhile Char.isWhitespace).reverse
  match t with
  | '-' :: rest => (digitsVal rest).map (fun n => -(n : Int))
  | '+' :: rest => (digitsVal rest).map (fun n => (n : Int))
  | _ => (digitsVal t).map (fun n => (n : Int))

/-- Lines 171–173: `bj_value = data['bj']; if isinstance(bj_value, str):
bj_value = int(bj_value)`.  `none` models the uncaught `ValueError` from
`int` on a non-numeric string (it propagates to `on_message`'s blanket
`except`). -/
def bjCoerce : JVal → Option JVal
  | JVal.jstr s => (pyInt s).map JVal.jint
  | v => some v

/-- Python `bj_value == 1` (line 174) on the possible value types: an int
equals 1 iff it is 1, a float iff it equals 1.0, `True == 1` holds in Python,
and strings/None never equal an int. -/
def pyEqOne : JVal → Bool
  | JVal.jint n => decide (n = 1)
  | JVal.jnum q => decide (q = 1)
  | JVal.jbool b => b
  | _ => false

/-- Python truthiness test `not device.station_id` (lines 131, 223): `None`
and `0` are falsy. -/
def pyFalsy : Option Nat → Bool
  | none => true
  | some 0 => true
  | some _ => false

/-! ## Binding store operations -/

/-- In-place mutation of the row returned by
`Device.query.filter_by(imei=imei).first()`: applies `f` to the first device
with the given IMEI, leaving every other row unchanged. -/
def updDevice : List Device → Str → (Device → Device) → List Device
  | [], _, _ => []
  | d :: ds, imei, f =>
    if d.imei = imei then f d :: ds else d :: updDevice ds imei f

/-- Generated placeholder name for auto-registered devices
(line 269: `name=f"自动注册-{imei}"`). -/
def autoName (imei : Str) : Str := ['自', '动', '注', '册', '-'] ++ imei

/-- `auto_register_device` (lines 257–276): look the IMEI up; if present
return the row unchanged, else insert a new unbound device with the observed
class and commit before returning.  Returns the device, the resulting
database, and the committed snapshots this call produced. -/
def auto_register_device (db : DB) (now : Nat) (imei : Str)
    (device_type : DeviceClass) : Device × DB × List DB :=
  match db.devices.find? (fun d => decide (d.imei = imei)) with
  | some device => (device, db, [])
  | none =>
    let device : Device :=
      { imei := imei, type := device_type, name := autoName imei,
        station_id := none, last_seen := some now, vbat := none }
    let db' : DB := { db with devices := db.devices ++ [device] }
    (device, db', [db'])

/-! ## Relay engine -/

/-- The `receive` CommLog row appended for an indoor message (lines 112–120). -/
def indoorReceiveRow (imei raw : Str) (sid : Option Nat) : CommLog :=
  { direction := Direction.receive, source_type := DeviceClass.indoor,
    source_imei := imei, target_type := none, target_imei := none,
    topic := INDOOR_PUB ++ imei, payload := raw, station_id := sid }

/-- The `forward` CommLog row appended for one outdoor target of an indoor
message (lines 154–164). -/
def indoorForwardRow (imei tgt raw : Str) (sid : Option Nat) : CommLog :=
  { direction := Direction.forward, source_type := DeviceClass.indoor,
    source_imei := imei, target_type := some DeviceClass.outdoor,
    target_imei := some tgt, topic := OUTDOOR_SUB ++ tgt, payload := raw,
    station_id := sid }

/-- The `receive` CommLog row appended for an outdoor message (lines 211–219). -/
def outdoorReceiveRow (imei raw : Str) (sid : Option Nat) : CommLog :=
  { direction := Direction.receive, source_type := DeviceClass.outdoor,
    source_imei := imei, target_type := none, target_imei := none,
    topic := OUTDOOR_PUB ++ imei, payload := raw, station_id := sid }

/-- The `forward` CommLog row appended for the indoor target of an outdoor
message (lines 243–253). -/
def outdoorForwardRow (imei tgt raw : Str) (sid : Option Nat) : CommLog :=
  { direction := Direction.forward, source_type := DeviceClass.outdoor,
    source_imei := imei, target_type := some DeviceClass.indoor,
    target_imei := some tgt, topic := INDOOR_SUB ++ tgt, payload := raw,
    station_id := sid }

/-- The AlarmLog row appended by lines 175–182. -/
def bjAlarmRow (imei : Str) (sid : Option Nat) (t : AlarmType)
    (outs : List Str) : AlarmLog :=
  { station_id := sid, indoor_imei := imei, alarm_type := t,
    outdoor_imeis := outs, forward_status := 1 }

/-- `handle_indoor_message` (lines 97–184), one inbound indoor-prefix
message: auto-register, update last-seen (commit), append a `receive`
CommLog (commit), parse the payload (return on failure), stop when unbound,
query the station's outdoor devices (stop when none), publish the raw
payload to every outdoor device's subscribe topic and append the `forward`
CommLogs (commit), then, when the parsed payload carries `'bj'`, append one
AlarmLog (commit). -/
def handle_indoor_message (db0 : DB) (now : Nat) (imei : Str)
    (payload : Payload) : RunResult :=
  let r0 := auto_register_device db0 now imei DeviceClass.indoor
  let device := r0.1
  let db1 := r0.2.1
  let snaps1 := r0.2.2
  let touch := fun (d : Device) => { d with last_seen := some now }
  let db2 : DB := { db1 with devices := updDevice db1.devices imei touch }
  let receive_log : CommLog := indoorReceiveRow imei payload.raw device.station_id
  let db3 : DB := { db2 with comm_logs := db2.comm_logs ++ [receive_log] }
  let base : RunResult :=
    { db := db3, snapshots := snaps1 ++ [db2, db3], publishes := [] }
  match payload.parsed with
  | none => base
  | some data =>
    if pyFalsy device.station_id then base
    else
      let outdoor_devices := db3.devices.filter
        (fun d => decide (d.station_id = device.station_id ∧
                          d.type = DeviceClass.outdoor))
      if outdoor_devices = [] then base
      else
        let outdoor_imeis := outdoor_devices.map (fun o => o.imei)
        let publishes := outdoor_devices.map
          (fun o => (OUTDOOR_SUB ++ o.imei, payload.raw))
        let forward_logs : List CommLog := outdoor_devices.map (fun o =>
          indoorForwardRow imei o.imei payload.raw device.station_id)
        let db4 : DB := { db3 with comm_logs := db3.comm_logs ++ forward_logs }
        let fwdResult : RunResult :=
          { db := db4, snapshots := snaps1 ++ [db2, db3, db4],
            publishes := publishes }
        match lookupKey data bjKey with
        | none => fwdResult
        | some bj0 =>
          match bjCoerce bj0 with
          | none => fwdResult
          | some bj_value =>
            let alarm_type := if pyEqOne bj_value then AlarmType.alarm
                              else AlarmType.cancel
            let alarm_log : AlarmLog :=
              bjAlarmRow imei device.station_id alarm_type outdoor_imeis
            let db5 : DB :=
              { db4 with alarm_logs := db4.alarm_logs ++ [alarm_log] }
            { db := db5, snapshots := snaps1 ++ [db2, db3, db4, db5],
              publishes := publishes }

/-- Lines 200–206: the battery-voltage field of the payload, when the payload
parses and carries `'vbat'` (`data['vbat']` guarded by `'vbat' in data`,
inside the `try` whose `except` ignores parse failures). -/
def vbatField (payload : Payload) : Option JVal :=
  match payload.parsed with
  | some data => lookupKey data vbatKey
  | none => none

/-- `handle_outdoor_message` (lines 187–254), one inbound outdoor-prefix
message: auto-register, update last-seen and — when the payload parses and
carries `'vbat'` — the stored voltage (one commit), append a `receive`
CommLog (commit), stop when unbound, look up the station's indoor device
(stop when none), publish the raw payload to its subscribe topic and append
the `forward` CommLog (commit). -/
def handle_outdoor_message (db0 : DB) (now : Nat) (imei : Str)
    (payload : Payload) : RunResult :=
  let r0 := auto_register_device db0 now imei DeviceClass.outdoor
  let device := r0.1
  let db1 := r0.2.1
  let snaps1 := r0.2.2
  let touch := fun (d : Device) =>
    match vbatField payload with
    | some v => { d with last_seen := some now, vbat := some v }
    | none => { d with last_seen := some now }
  let db2 : DB := { db1 with devices := updDevice db1.devices imei touch }
  let receive_log : CommLog := outdoorReceiveRow imei payload.raw device.station_id
  let db3 : DB := { db2 with comm_logs := db2.comm_logs ++ [receive_log] }
  let base : RunResult :=
    { db := db3, snapshots := snaps1 ++ [db2, db3], publishes := [] }
  if pyFalsy device.station_id then base
  else
    match db3.devices.find?
        (fun d => decide (d.station_id = device.station_id ∧
                          d.type = DeviceClass.indoor)) with
    | none => base
    | some indoor_device =>
      let target_topic := INDOOR_SUB ++ indoor_device.imei
      let forward_log : CommLog :=
        outdoorForwardRow imei indoor_device.imei payload.raw device.station_id
      let db4 : DB := { db3 with comm_logs := db3.comm_logs ++ [forward_log] }
      { db := db4, snapshots := snaps1 ++ [db2, db3, db4],
        publishes := [(target_topic, payload.raw)] }

/-- `on_message` (lines 76–94): dispatch an inbound message by topic — by
the topic's publish prefix alone — extracting the IMEI as the last
`/`-segment; unrecognized topics are dropped without side effects. -/
def on_message (db : DB) (now : Nat) (topic : Str) (payload : Payload) :
    RunResult :=
  if INDOOR_PUB.isPrefixOf topic then
    handle_indoor_message db now (lastSeg topic) payload
  else if OUTDOOR_PUB.isPrefixOf topic then
    handle_outdoor_message db now (lastSeg topic) payload
  else { db := db, snapshots := [], publishes := [] }

/-- The station id the relay uses for a message from `imei`: the bound
station of the existing row, or `none` for a freshly auto-registered
device. -/
def resolvedStation (db : DB) (imei : Str) : Option Nat :=
  match db.devices.find? (fun d => decide (d.imei = imei)) with
  | some d => d.station_id
  | none => none

/-- The IMEIs of the outdoor devices bound to `sid`, in table order — the
fan-out target set of an indoor message from a device bound to `sid`. -/
def outdoorIMEIs (db : DB) (sid : Option Nat) : List Str :=
  (db.devices.filter (fun d => decide (d.station_id = sid ∧
      d.type = DeviceClass.outdoor))).map (fun d => d.imei)

/-! ## Structural lemmas about `updDevice` -/

theorem updDevice_map_imei_filter (ds : List Device) (imei : Str)
    (f : Device → Device) (p : Device → Bool)
    (hp : ∀ d, p (f d) = p d) (himei : ∀ d, (f d).imei = d.imei) :
    ((updDevice ds imei f).filter p).map (fun d => d.imei)
      = (ds.filter p).map (fun d => d.imei) := by
  induction ds with
  | nil => rfl
  | cons d ds ih =>
    by_cases hd : d.imei = imei
    · simp only [updDevice, if_pos hd, List.filter_cons, hp]
      cases hpd : p d <;> simp [himei]
    · simp only [updDevice, if_neg hd, List.filter_cons]
      cases hpd : p d <;> simp [ih]

theorem updDevice_find?_map_imei (ds : List Device) (imei : Str)
    (f : Device → Device) (p : Device → Bool)
    (hp : ∀ d, p (f d) = p d) (himei : ∀ d, (f d).imei = d.imei) :
    ((updDevice ds imei f).find? p).map (fun d => d.imei)
      = (ds.find? p).map (fun d => d.imei) := by
  induction ds with
  | nil => rfl
  | cons d ds ih =>
    by_cases hd : d.imei = imei
    · simp only [updDevice, if_pos hd, List.find?_cons, hp]
      cases hpd : p d <;> simp [himei]
    · simp only [updDevice, if_neg hd, List.find?_cons]
      cases hpd : p d <;> simp [ih]

theorem updDevice_find?_byImei (ds : List Device) (imei : Str)
    (f : Device → Device) (dev : Device)
    (himei : ∀ d, (f d).imei = d.imei)
    (h : ds.find? (fun d => decide (d.imei = imei)) = some dev) :
    (updDevice ds imei f).find? (fun d => decide (d.imei = imei))
      = some (f dev) := by
  induction ds with
  | nil => simp at h
  | cons d ds ih =>
    by_cases hd : d.imei = imei
    · have hd1 : (fun x : Device => decide (x.imei = imei)) d = true := by
        simp [hd]
      have hd2 : (fun x : Device => decide (x.imei = imei)) (f d) = true := by
        simp [himei, hd]
      simp only [updDevice, if_pos hd, List.find?_cons, hd1, hd2] at h ⊢
      simp only [Option.some.injEq] at h
      rw [h]
    · have hd1 : (fun x : Device => decide (x.imei = imei)) d = false := by
        simp [hd]
      simp only [updDevice, if_neg hd, List.find?_cons, hd1] at h ⊢
      exact ih h

theorem mem_of_mem_updDevice_ne (ds : List Device) (imei : Str)
    (f : Device → Device) (himei : ∀ d, (f d).imei = d.imei) (d : Device)
    (hmem : d ∈ updDevice ds imei f) (hne : d.imei ≠ imei) : d ∈ ds := by
  induction ds with
  | nil => simp [updDevice] at hmem
  | cons x xs ih =>
    by_cases hx : x.imei = imei
    · simp only [updDevice, if_pos hx, List.mem_cons] at hmem
      rcases hmem with h | h
      · exact absurd (h ▸ (himei x).trans hx) hne
      · exact List.mem_cons_of_mem x h
    · simp only [updDevice, if_neg hx, List.mem_cons] at hmem
      rcases hmem with h | h
      · exact h ▸ List.mem_cons_self x xs
      · exact List.mem_cons_of_mem x (ih h)

theorem mem_updDevice_of_mem_ne (ds : List Device) (imei : Str)
    (f : Device → Device) (d : Device)
    (hmem : d ∈ ds) (hne : d.imei ≠ imei) : d ∈ updDevice ds imei f := by
  induction ds with
  | nil => simp at hmem
  | cons x xs ih =>
    rcases List.mem_cons.mp hmem with h | h
    · subst h
      simp [updDevice, if_neg hne]
    · by_cases hx : x.imei = imei
      · simp [updDevice, if_pos hx, List.mem_cons_of_mem _ h]
      · simp only [updDevice, if_neg hx]
        exact List.mem_cons_of_mem x (ih h)

theorem updDevice_length (ds : List Device) (imei : Str) (f : Device → Device) :
    (updDevice ds imei f).length = ds.length := by
  induction ds with
  | nil => rfl
  | cons x xs ih =>
    by_cases hx : x.imei = imei <;> simp [updDevice, hx, ih]

theorem map_eq_pair {α β : Type} (f : α → β) (l : List α) (a b : β)
    (h : l.map f = [a, b]) : ∃ x y, l = [x, y] ∧ f x = a ∧ f y = b := by
  cases l with
  | nil => simp at h
  | cons x xs =>
    cases xs with
    | nil => simp at h
    | cons y ys =>
      cases ys with
      | nil =>
        simp only [List.map_cons, List.map_nil, List.cons.injEq, and_true] at h
        exact ⟨x, y, rfl, h.1, h.2⟩
      | cons z zs => simp at h

/-! ## Claim C4 — topic codec round trip -/

/-- C4 (counterexample): the round trip fails as stated for an IMEI that
contains the separator `/` — `parse(build(indoor, "a/b"))` yields `"b"`, the
last `/`-segment, not the entire remainder `"a/b"` after the prefix. -/
theorem claim_C4_counterexample :
    parseTopic (buildPub DeviceClass.indoor ['a', '/', 'b'])
        = some (DeviceClass.indoor, ['b']) ∧
      parseTopic (buildPub DeviceClass.indoor ['a', '/', 'b'])
        ≠ some (DeviceClass.indoor, ['a', '/', 'b']) := by
  constructor <;> decide

/-- C4 (amended): for every device class and every IMEI not containing the
topic separator `/`, `parse(build(class, imei)) = (class, imei)`; the IMEI
extracted by `on_message` is `topic.split('/')[-1]`, which is the entire
remainder after the publish prefix exactly when the IMEI is `/`-free. -/
theorem claim_C4_roundtrip (c : DeviceClass) (imei : Str) (h : '/' ∉ imei) :
    parseTopic (buildPub c imei) = some (c, imei) := by
  cases c
  · have h1 : INDOOR_PUB.isPrefixOf (INDOOR_PUB ++ imei) = true :=
      isPrefixOf_append_self INDOOR_PUB imei
    have h2 : INDOOR_PUB ++ imei =
        ['/', 'A', 'I', 'R', '8', '0', '0', '0', '/', 'P', 'U', 'B'] ++ '/' :: imei := by
      simp [INDOOR_PUB]
    simp only [parseTopic, buildPub, h1, if_true, if_pos]
    rw [h2, lastSeg_append_of_not_mem _ imei h]
  · have h1 : INDOOR_PUB.isPrefixOf (OUTDOOR_PUB ++ imei) = false := by
      simp [INDOOR_PUB, OUTDOOR_PUB, List.isPrefixOf]
    have h2 : OUTDOOR_PUB.isPrefixOf (OUTDOOR_PUB ++ imei) = true :=
      isPrefixOf_append_self OUTDOOR_PUB imei
    have h3 : OUTDOOR_PUB ++ imei =
        ['/', '7', '8', '0', 'E', 'H', 'V', '/', 'P', 'U', 'B'] ++ '/' :: imei := by
      simp [OUTDOOR_PUB]
    simp only [parseTopic, buildPub, h1, h2, Bool.false_eq_true, if_false, if_true]
    rw [h3, lastSeg_append_of_not_mem _ imei h]

/-- C4 (witness): the round-trip theorem applied at a concrete `/`-free
IMEI for each class. -/
theorem claim_C4_roundtrip_witness :
    ('/' ∉ (['8', '6', '4'] : Str) ∧
      parseTopic (buildPub DeviceClass.indoor ['8', '6', '4'])
        = some (DeviceClass.indoor, ['8', '6', '4'])) ∧
    parseTopic (buildPub DeviceClass.outdoor ['8', '6', '6'])
        = some (DeviceClass.outdoor, ['8', '6', '6']) :=
  ⟨⟨by decide, claim_C4_roundtrip DeviceClass.indoor ['8', '6', '4'] (by decide)⟩,
    claim_C4_roundtrip DeviceClass.outdoor ['8', '6', '6'] (by decide)⟩

/-! ## Run characterizations

`indoorBoundRun`/`outdoorBoundRun` restate the effect of one handler run in
terms of the *input* database (using `outdoorIMEIs`/`indoorTargetIMEI` on the
pre-state); the master lemmas prove them equal to the handlers.  All claim
theorems about the relay paths go through these. -/

/-- The AlarmLog rows (zero or one) appended by lines 169–184 for a parsed
indoor payload: none when `'bj'` is absent or its string value does not parse
as an int, else one row whose type is `alarm` exactly when the coerced value
Python-equals `1`. -/
def bjAlarmRows (data : List (Str × JVal)) (imei : Str) (sid : Option Nat)
    (outs : List Str) : List AlarmLog :=
  match lookupKey data bjKey with
  | none => []
  | some v =>
    match bjCoerce v with
    | none => []
    | some v' =>
      [bjAlarmRow imei sid
        (if pyEqOne v' then AlarmType.alarm else AlarmType.cancel) outs]

/-- The IMEI of the station's indoor device, if any — the forward target of
an outdoor message from a device bound to `sid`. -/
def indoorTargetIMEI (db : DB) (sid : Option Nat) : Option Str :=
  (db.devices.find? (fun d => decide (d.station_id = sid ∧
      d.type = DeviceClass.indoor))).map (fun d => d.imei)

/-- Input-level restatement of a bound indoor run with parseable payload and
nonempty outdoor target set. -/
def indoorBoundRun (db : DB) (now : Nat) (imei : Str) (payload : Payload)
    (data : List (Str × JVal)) (sid : Option Nat) : RunResult :=
  let touch := fun (d : Device) => { d with last_seen := some now }
  let db2 : DB := { db with devices := updDevice db.devices imei touch }
  let db3 : DB :=
    { db2 with comm_logs := db2.comm_logs ++ [indoorReceiveRow imei payload.raw sid] }
  let outs := outdoorIMEIs db sid
  let db4 : DB :=
    { db3 with comm_logs := db3.comm_logs ++
        outs.map (fun t => indoorForwardRow imei t payload.raw sid) }
  let arows := bjAlarmRows data imei sid outs
  let db5 : DB := { db4 with alarm_logs := db4.alarm_logs ++ arows }
  { db := db5,
    snapshots := [db2, db3, db4] ++ (if arows = [] then [] else [db5]),
    publishes := outs.map (fun t => (OUTDOOR_SUB ++ t, payload.raw)) }

/-- Input-level restatement of a bound outdoor run. -/
def outdoorBoundRun (db : DB) (now : Nat) (imei : Str) (payload : Payload)
    (sid : Option Nat) : RunResult :=
  let touch := fun (d : Device) =>
    match vbatField payload with
    | some v => { d with last_seen := some now, vbat := some v }
    | none => { d with last_seen := some now }
  let db2 : DB := { db with devices := updDevice db.devices imei touch }
  let db3 : DB :=
    { db2 with comm_logs := db2.comm_logs ++ [outdoorReceiveRow imei payload.raw sid] }
  match indoorTargetIMEI db sid with
  | none => { db := db3, snapshots := [db2, db3], publishes := [] }
  | some t =>
    let db4 : DB :=
      { db3 with comm_logs := db3.comm_logs ++ [outdoorForwardRow imei t payload.raw sid] }
    { db := db4, snapshots := [db2, db3, db4],
      publishes := [(INDOOR_SUB ++ t, payload.raw)] }

theorem map_comp_imei {β : Type} (l : List Device) (g : Str → β) :
    l.map (fun d => g d.imei) = (l.map (fun d => d.imei)).map g := by
  rw [List.map_map]
  rfl

/-- Master lemma: a bound indoor run with parseable payload and nonempty
outdoor target set equals its input-level restatement. -/
theorem handle_indoor_run_eq (db : DB) (now : Nat) (imei : Str)
    (payload : Payload) (data : List (Str × JVal)) (dev : Device)
    (hfind : db.devices.find? (fun d => decide (d.imei = imei)) = some dev)
    (hp : payload.parsed = some data)
    (hb : pyFalsy dev.station_id = false)
    (ho : outdoorIMEIs db dev.station_id ≠ []) :
    handle_indoor_message db now imei payload =
      indoorBoundRun db now imei payload data dev.station_id := by
  have hmap :
      ((updDevice db.devices imei
          (fun d => { d with last_seen := some now })).filter
        (fun d => decide (d.station_id = dev.station_id ∧
            d.type = DeviceClass.outdoor))).map (fun d => d.imei)
      = outdoorIMEIs db dev.station_id := by
    exact updDevice_map_imei_filter db.devices imei _ _ (fun d => rfl) (fun d => rfl)
  have hne :
      (updDevice db.devices imei
          (fun d => { d with last_seen := some now })).filter
        (fun d => decide (d.station_id = dev.station_id ∧
            d.type = DeviceClass.outdoor)) ≠ [] := by
    intro hnil
    apply ho
    rw [← hmap, hnil]
    rfl
  simp only [handle_indoor_message, auto_register_device, hfind, hp, hb,
    Bool.false_eq_true, if_false, indoorBoundRun, List.nil_append]
  rw [if_neg hne]
  rw [map_comp_imei _ (fun t => (OUTDOOR_SUB ++ t, payload.raw))]
  rw [map_comp_imei _ (fun t => indoorForwardRow imei t payload.raw dev.station_id)]
  rw [hmap]
  cases hlk : lookupKey data bjKey with
  | none =>
    simp [bjAlarmRows, hlk]
  | some v =>
    cases hco : bjCoerce v with
    | none =>
      simp [bjAlarmRows, hlk, hco]
    | some v' =>
      simp [bjAlarmRows, hlk, hco]

/-- Master lemma: a bound outdoor run equals its input-level restatement. -/
theorem handle_outdoor_run_eq (db : DB) (now : Nat) (imei : Str)
    (payload : Payload) (dev : Device)
    (hfind : db.devices.find? (fun d => decide (d.imei = imei)) = some dev)
    (hb : pyFalsy dev.station_id = false) :
    handle_outdoor_message db now imei payload =
      outdoorBoundRun db now imei payload dev.station_id := by
  cases hvb : vbatField payload with
  | none =>
    simp only [handle_outdoor_message, auto_register_device, outdoorBoundRun,
      hfind, hb, hvb, Bool.false_eq_true, if_false, List.nil_append]
    have hfi' := updDevice_find?_map_imei db.devices imei
      (fun d => { d with last_seen := some now })
      (fun d => decide (d.station_id = dev.station_id ∧
          d.type = DeviceClass.indoor)) (fun d => rfl) (fun d => rfl)
    cases hfi : (updDevice db.devices imei
        (fun d => { d with last_seen := some now })).find?
        (fun d => decide (d.station_id = dev.station_id ∧
            d.type = DeviceClass.indoor)) with
    | none =>
      rw [hfi] at hfi'
      simp only [Option.map_none'] at hfi'
      simp only [indoorTargetIMEI, ← hfi']
    | some t =>
      rw [hfi] at hfi'
      simp only [Option.map_some'] at hfi'
      simp only [indoorTargetIMEI, ← hfi']
  | some v =>
    simp only [handle_outdoor_message, auto_register_device, outdoorBoundRun,
      hfind, hb, hvb, Bool.false_eq_true, if_false, List.nil_append]
    have hfi' := updDevice_find?_map_imei db.devices imei
      (fun d => { d with last_seen := some now, vbat := some v })
      (fun d => decide (d.station_id = dev.station_id ∧
          d.type = DeviceClass.indoor)) (fun d => rfl) (fun d => rfl)
    cases hfi : (updDevice db.devices imei
        (fun d => { d with last_seen := some now, vbat := some v })).find?
        (fun d => decide (d.station_id = dev.station_id ∧
            d.type = DeviceClass.indoor)) with
    | none =>
      rw [hfi] at hfi'
      simp only [Option.map_none'] at hfi'
      simp only [indoorTargetIMEI, ← hfi']
    | some t =>
      rw [hfi] at hfi'
      simp only [Option.map_some'] at hfi'
      simp only [indoorTargetIMEI, ← hfi']

/-! ## Concrete fixtures used by witnesses and counterexamples -/

/-- Sample indoor IMEI. -/
def imeiA : Str := ['8', '6', '4']

/-- Sample outdoor IMEI. -/
def imeiB : Str := ['8', '6', '6']

/-- Second sample outdoor IMEI. -/
def imeiC : Str := ['8', '6', '7']

/-- An indoor device bound to station 1. -/
def devI : Device :=
  { imei := imeiA, type := DeviceClass.indoor, name := [],
    station_id := some 1, last_seen := none, vbat := none }

/-- An outdoor device bound to station 1. -/
def devO : Device :=
  { imei := imeiB, type := DeviceClass.outdoor, name := [],
    station_id := some 1, last_seen := none, vbat := none }

/-- A second outdoor device bound to station 1. -/
def devO2 : Device :=
  { imei := imeiC, type := DeviceClass.outdoor, name := [],
    station_id := some 1, last_seen := none, vbat := none }

/-- Station 1 with one indoor and one outdoor device. -/
def exDB : DB := { devices := [devI, devO], comm_logs := [], alarm_logs := [] }

/-- Station 1 with one indoor and two outdoor devices. -/
def exDB2 : DB :=
  { devices := [devI, devO, devO2], comm_logs := [], alarm_logs := [] }

/-! ## Claim C6 — unbound source device -/

/-- C6: for any inbound message (indoor- or outdoor-prefix) whose source
device has no station binding, processing performs zero publishes, appends
zero AlarmLog rows and zero forward CommLog rows, and appends exactly one
`receive` CommLog row with null station id. -/
theorem claim_C6 (db : DB) (now : Nat) (imei : Str) (payload : Payload)
    (hres : resolvedStation db imei = none) :
    ((handle_indoor_message db now imei payload).publishes = [] ∧
      (handle_indoor_message db now imei payload).db.alarm_logs = db.alarm_logs ∧
      (handle_indoor_message db now imei payload).db.comm_logs =
        db.comm_logs ++ [indoorReceiveRow imei payload.raw none]) ∧
    ((handle_outdoor_message db now imei payload).publishes = [] ∧
      (handle_outdoor_message db now imei payload).db.alarm_logs = db.alarm_logs ∧
      (handle_outdoor_message db now imei payload).db.comm_logs =
        db.comm_logs ++ [outdoorReceiveRow imei payload.raw none]) := by
  unfold resolvedStation at hres
  cases hfind : db.devices.find? (fun d => decide (d.imei = imei)) with
  | none =>
    constructor
    · cases hpp : payload.parsed with
      | none =>
        simp [handle_indoor_message, auto_register_device, hfind, hpp]
      | some data =>
        simp [handle_indoor_message, auto_register_device, hfind, hpp, pyFalsy]
    · simp [handle_outdoor_message, auto_register_device, hfind, pyFalsy]
  | some dev =>
    rw [hfind] at hres
    simp only at hres
    constructor
    · cases hpp : payload.parsed with
      | none =>
        simp [handle_indoor_message, auto_register_device, hfind, hpp, hres]
      | some data =>
        simp [handle_indoor_message, auto_register_device, hfind, hpp, hres, pyFalsy]
    · simp [handle_outdoor_message, auto_register_device, hfind, hres, pyFalsy]

/-- An unbound indoor device row. -/
def devU : Device :=
  { imei := imeiA, type := DeviceClass.indoor, name := [],
    station_id := none, last_seen := none, vbat := none }

/-- A store holding only the unbound device `devU`. -/
def exDBu : DB := { devices := [devU], comm_logs := [], alarm_logs := [] }

/-- C6 (witness): an unbound indoor device in an otherwise empty store. -/
theorem claim_C6_witness :
    (resolvedStation exDBu imeiA = none) ∧
    (((handle_indoor_message exDBu 5 imeiA { raw := ['x'], parsed := none }).publishes = [] ∧
      (handle_indoor_message exDBu 5 imeiA { raw := ['x'], parsed := none }).db.alarm_logs =
        exDBu.alarm_logs ∧
      (handle_indoor_message exDBu 5 imeiA { raw := ['x'], parsed := none }).db.comm_logs =
        exDBu.comm_logs ++ [indoorReceiveRow imeiA ['x'] none]) ∧
    ((handle_outdoor_message exDBu 5 imeiA { raw := ['x'], parsed := none }).publishes = [] ∧
      (handle_outdoor_message exDBu 5 imeiA { raw := ['x'], parsed := none }).db.alarm_logs =
        exDBu.alarm_logs ∧
      (handle_outdoor_message exDBu 5 imeiA { raw := ['x'], parsed := none }).db.comm_logs =
        exDBu.comm_logs ++ [outdoorReceiveRow imeiA ['x'] none])) :=
  ⟨by decide,
    claim_C6 exDBu 5 imeiA { raw := ['x'], parsed := none } (by decide)⟩

/-! ## Claim C7 — resolve-or-register -/

/-- C7: `auto_register_device` returns an existing row unchanged (for any
observed class, so also on class mismatch — the stored class is never
overwritten), and for an unknown IMEI creates, persists (committing before
returning) and returns a new device with the observed class, the generated
placeholder name, no station binding, and last-seen set to now. -/
theorem claim_C7 (db : DB) (now : Nat) (imei : Str) (t : DeviceClass)
    (dev : Device) :
    (db.devices.find? (fun d => decide (d.imei = imei)) = some dev →
      auto_register_device db now imei t = (dev, db, [])) ∧
    (db.devices.find? (fun d => decide (d.imei = imei)) = none →
      auto_register_device db now imei t =
        ({ imei := imei, type := t, name := autoName imei, station_id := none,
           last_seen := some now, vbat := none },
         { db with devices := db.devices ++
             [{ imei := imei, type := t, name := autoName imei,
                station_id := none, last_seen := some now, vbat := none }] },
         [{ db with devices := db.devices ++
             [{ imei := imei, type := t, name := autoName imei,
                station_id := none, last_seen := some now, vbat := none }] }])) := by
  constructor <;> intro h <;> simp [auto_register_device, h]

/-- C7 (witness): looking up the bound indoor device with a mismatched
observed class returns it unchanged; registering an unknown IMEI appends
exactly the new unbound row. -/
theorem claim_C7_witness :
    (exDB.devices.find? (fun d => decide (d.imei = imeiA)) = some devI ∧
      auto_register_device exDB 7 imeiA DeviceClass.outdoor = (devI, exDB, [])) ∧
    (exDB.devices.find? (fun d => decide (d.imei = imeiC)) = none ∧
      auto_register_device exDB 7 imeiC DeviceClass.outdoor =
        ({ imei := imeiC, type := DeviceClass.outdoor, name := autoName imeiC,
           station_id := none, last_seen := some 7, vbat := none },
         { exDB with devices := exDB.devices ++
             [{ imei := imeiC, type := DeviceClass.outdoor, name := autoName imeiC,
                station_id := none, last_seen := some 7, vbat := none }] },
         [{ exDB with devices := exDB.devices ++
             [{ imei := imeiC, type := DeviceClass.outdoor, name := autoName imeiC,
                station_id := none, last_seen := some 7, vbat := none }] }])) :=
  ⟨⟨by decide, (claim_C7 exDB 7 imeiA DeviceClass.outdoor devI).1 (by decide)⟩,
    ⟨by decide, (claim_C7 exDB 7 imeiC DeviceClass.outdoor devI).2 (by decide)⟩⟩

/-! ## Claim C8 — outdoor battery-voltage update -/

/-- C8: an outdoor message whose payload parses and carries the
battery-voltage field sets the source device's stored voltage to that value
(and refreshes last-seen), leaves its station binding unchanged — the updated
row differs from `dev` only in `last_seen` and `vbat` — and modifies no other
device row. -/
theorem claim_C8 (db : DB) (now : Nat) (imei : Str) (payload : Payload)
    (data : List (Str × JVal)) (v : JVal) (dev : Device)
    (hfind : db.devices.find? (fun d => decide (d.imei = imei)) = some dev)
    (hp : payload.parsed = some data)
    (hv : lookupKey data vbatKey = some v) :
    (handle_outdoor_message db now imei payload).db.devices =
      updDevice db.devices imei
        (fun d => { d with last_seen := some now, vbat := some v }) ∧
    (handle_outdoor_message db now imei payload).db.devices.find?
        (fun d => decide (d.imei = imei)) =
      some { dev with last_seen := some now, vbat := some v } ∧
    (∀ d, d ∈ db.devices → d.imei ≠ imei →
      d ∈ (handle_outdoor_message db now imei payload).db.devices) ∧
    (∀ d, d ∈ (handle_outdoor_message db now imei payload).db.devices →
      d.imei ≠ imei → d ∈ db.devices) ∧
    (handle_outdoor_message db now imei payload).db.devices.length =
      db.devices.length := by
  have hvb : vbatField payload = some v := by
    simp [vbatField, hp, hv]
  have hdev : (handle_outdoor_message db now imei payload).db.devices =
      updDevice db.devices imei
        (fun d => { d with last_seen := some now, vbat := some v }) := by
    simp only [handle_outdoor_message, auto_register_device, hfind, hvb]
    cases hb : pyFalsy dev.station_id with
    | true => simp
    | false =>
      simp only [Bool.false_eq_true, if_false]
      cases hfi : (updDevice db.devices imei
          (fun d => { d with last_seen := some now, vbat := some v })).find?
          (fun d => decide (d.station_id = dev.station_id ∧
              d.type = DeviceClass.indoor)) with
      | none => simp
      | some t => simp
  refine ⟨hdev, ?_, ?_, ?_, ?_⟩
  · rw [hdev]
    exact updDevice_find?_byImei db.devices imei _ dev (fun d => rfl) hfind
  · intro d hmem hne
    rw [hdev]
    exact mem_updDevice_of_mem_ne db.devices imei _ d hmem hne
  · intro d hmem hne
    rw [hdev] at hmem
    exact mem_of_mem_updDevice_ne db.devices imei
      (fun d => { d with last_seen := some now, vbat := some v })
      (fun d => rfl) d hmem hne
  · rw [hdev]
    exact updDevice_length db.devices imei _

/-- C8 (witness): `{"vbat": 3.1}` from the bound outdoor device stores
voltage 3.1 and leaves its station binding and the other row untouched. -/
theorem claim_C8_witness :
    (exDB.devices.find? (fun d => decide (d.imei = imeiB)) = some devO ∧
      ({ raw := ['y'], parsed := some [(vbatKey, JVal.jnum (mkRat 31 10))] }
          : Payload).parsed = some [(vbatKey, JVal.jnum (mkRat 31 10))] ∧
      lookupKey [(vbatKey, JVal.jnum (mkRat 31 10))] vbatKey =
        some (JVal.jnum (mkRat 31 10))) ∧
    ((handle_outdoor_message exDB 5 imeiB
        { raw := ['y'], parsed := some [(vbatKey, JVal.jnum (mkRat 31 10))] }).db.devices =
      updDevice exDB.devices imeiB
        (fun d => { d with last_seen := some 5, vbat := some (JVal.jnum (mkRat 31 10)) }) ∧
    (handle_outdoor_message exDB 5 imeiB
        { raw := ['y'], parsed := some [(vbatKey, JVal.jnum (mkRat 31 10))] }).db.devices.find?
        (fun d => decide (d.imei = imeiB)) =
      some { devO with last_seen := some 5, vbat := some (JVal.jnum (mkRat 31 10)) } ∧
    (∀ d, d ∈ exDB.devices → d.imei ≠ imeiB →
      d ∈ (handle_outdoor_message exDB 5 imeiB
        { raw := ['y'], parsed := some [(vbatKey, JVal.jnum (mkRat 31 10))] }).db.devices) ∧
    (∀ d, d ∈ (handle_outdoor_message exDB 5 imeiB
        { raw := ['y'], parsed := some [(vbatKey, JVal.jnum (mkRat 31 10))] }).db.devices →
      d.imei ≠ imeiB → d ∈ exDB.devices) ∧
    (handle_outdoor_message exDB 5 imeiB
        { raw := ['y'], parsed := some [(vbatKey, JVal.jnum (mkRat 31 10))] }).db.devices.length =
      exDB.devices.length) :=
  ⟨⟨by decide, rfl, by decide⟩,
    claim_C8 exDB 5 imeiB
      { raw := ['y'], parsed := some [(vbatKey, JVal.jnum (mkRat 31 10))] }
      [(vbatKey, JVal.jnum (mkRat 31 10))] (JVal.jnum (mkRat 31 10)) devO
      (by decide) rfl (by decide)⟩

/-! ## Claim C1 — unparseable payload -/

/-- C1 (counterexample): an unparseable payload from the *bound* indoor
device — whose station has a nonempty outdoor target set — is **not**
forwarded: `handle_indoor_message` parses before forwarding (lines 123–128)
and returns after the receive log when `json.loads` fails, producing zero
publishes and zero forward rows. -/
theorem claim_C1_counterexample :
    resolvedStation exDB imeiA = some 1 ∧
    outdoorIMEIs exDB (some 1) = [imeiB] ∧
    (handle_indoor_message exDB 5 imeiA { raw := ['x'], parsed := none }).publishes = [] ∧
    (handle_indoor_message exDB 5 imeiA
        { raw := ['x'], parsed := none }).db.comm_logs.filter
      (fun l => decide (l.direction = Direction.forward)) = [] := by
  constructor
  · decide
  constructor
  · decide
  constructor
  · decide
  · decide

/-- C1 (amended): forwarding without parsing holds only on the outdoor path —
an outdoor message with unparseable payload is processed exactly like one
whose parsed payload carries no battery field (same publishes, same rows,
same snapshots) — while an indoor message with unparseable payload is logged
as received but produces no publishes, no forward rows and no alarm rows. -/
theorem claim_C1 (db : DB) (now : Nat) (imei : Str) (raw : Str) :
    handle_outdoor_message db now imei { raw := raw, parsed := none } =
      handle_outdoor_message db now imei { raw := raw, parsed := some [] } ∧
    (handle_indoor_message db now imei { raw := raw, parsed := none }).publishes = [] ∧
    (handle_indoor_message db now imei { raw := raw, parsed := none }).db.alarm_logs =
      db.alarm_logs ∧
    (handle_indoor_message db now imei { raw := raw, parsed := none }).db.comm_logs =
      db.comm_logs ++ [indoorReceiveRow imei raw (resolvedStation db imei)] := by
  refine ⟨rfl, ?_⟩
  cases hfind : db.devices.find? (fun d => decide (d.imei = imei)) with
  | none =>
    simp [handle_indoor_message, auto_register_device, hfind, resolvedStation]
  | some dev =>
    simp [handle_indoor_message, auto_register_device, hfind, resolvedStation]

/-! ## Claim C5 — two-outdoor fan-out -/

/-- C5 (counterexample): with the indoor device bound to a station holding
exactly two outdoor devices, an inbound indoor message whose payload is not
parseable produces zero publishes and one CommLog row — not the claimed two
publishes and three rows — because the indoor handler parses before
forwarding. -/
theorem claim_C5_counterexample :
    (exDB2.devices.filter (fun d => decide (d.station_id = some 1 ∧
        d.type = DeviceClass.outdoor))).length = 2 ∧
    resolvedStation exDB2 imeiA = some 1 ∧
    (handle_indoor_message exDB2 5 imeiA { raw := ['x'], parsed := none }).publishes = [] ∧
    (handle_indoor_message exDB2 5 imeiA
        { raw := ['x'], parsed := none }).db.comm_logs.length = 1 := by
  refine ⟨by decide, by decide, by decide, by decide⟩

/-- C5 (amended): restricted to messages whose payload parses as structured
data, the fan-out is as claimed — an indoor message from a bound device whose
station holds exactly two outdoor devices yields exactly two publishes (one
per outdoor device, on its outdoor-subscribe topic, raw payload verbatim) and
exactly three appended CommLog rows: the receive row followed by the two
forward rows. -/
theorem claim_C5 (db : DB) (now : Nat) (imei : Str) (payload : Payload)
    (data : List (Str × JVal)) (dev o1 o2 : Device)
    (hfind : db.devices.find? (fun d => decide (d.imei = imei)) = some dev)
    (hp : payload.parsed = some data)
    (hb : pyFalsy dev.station_id = false)
    (hfl : db.devices.filter (fun d => decide (d.station_id = dev.station_id ∧
        d.type = DeviceClass.outdoor)) = [o1, o2]) :
    (handle_indoor_message db now imei payload).publishes =
      [(OUTDOOR_SUB ++ o1.imei, payload.raw),
       (OUTDOOR_SUB ++ o2.imei, payload.raw)] ∧
    (handle_indoor_message db now imei payload).db.comm_logs =
      db.comm_logs ++
        [indoorReceiveRow imei payload.raw dev.station_id,
         indoorForwardRow imei o1.imei payload.raw dev.station_id,
         indoorForwardRow imei o2.imei payload.raw dev.station_id] := by
  have houts : outdoorIMEIs db dev.station_id = [o1.imei, o2.imei] := by
    unfold outdoorIMEIs
    rw [hfl]
    rfl
  have hne : outdoorIMEIs db dev.station_id ≠ [] := by
    rw [houts]
    simp
  rw [handle_indoor_run_eq db now imei payload data dev hfind hp hb hne]
  simp [indoorBoundRun, houts]

/-- C5 (witness): the two-outdoor station fixture with an empty parsed
payload. -/
theorem claim_C5_witness :
    (exDB2.devices.find? (fun d => decide (d.imei = imeiA)) = some devI ∧
      ({ raw := ['x'], parsed := some [] } : Payload).parsed = some [] ∧
      pyFalsy devI.station_id = false ∧
      exDB2.devices.filter (fun d => decide (d.station_id = devI.station_id ∧
          d.type = DeviceClass.outdoor)) = [devO, devO2]) ∧
    ((handle_indoor_message exDB2 5 imeiA { raw := ['x'], parsed := some [] }).publishes =
      [(OUTDOOR_SUB ++ devO.imei, ['x']), (OUTDOOR_SUB ++ devO2.imei, ['x'])] ∧
    (handle_indoor_message exDB2 5 imeiA { raw := ['x'], parsed := some [] }).db.comm_logs =
      exDB2.comm_logs ++
        [indoorReceiveRow imeiA ['x'] devI.station_id,
         indoorForwardRow imeiA devO.imei ['x'] devI.station_id,
         indoorForwardRow imeiA devO2.imei ['x'] devI.station_id]) :=
  ⟨⟨by decide, rfl, by decide, by decide⟩,
    claim_C5 exDB2 5 imeiA { raw := ['x'], parsed := some [] } [] devI devO devO2
      (by decide) rfl (by decide) (by decide)⟩

/-! ## Claim C2 — alarm detection and type coercion -/

/-- C2 (counterexample): the payload `{"bj": "01"}` — a present value that is
neither the integer `1` nor the numeric string `"1"`, so the claim requires a
`cancel` event — yields an AlarmEvent of type `alarm`, because line 173
applies Python `int` to any string value and `int("01") == 1`.  (A second
deviation, not needed for the refutation: an unbound device yields no event
at all.) -/
theorem claim_C2_counterexample :
    (handle_indoor_message exDB 7 imeiA
        { raw := ['z'], parsed := some [(bjKey, JVal.jstr ['0', '1'])] }).db.alarm_logs.map
      (fun a => a.alarm_type) = [AlarmType.alarm] ∧
    AlarmType.alarm ≠ AlarmType.cancel := by
  refine ⟨by decide, by decide⟩

/-- C2 (amended): for a *bound* indoor device with a *nonempty* outdoor
target set, a parsed payload carrying `'bj'` yields exactly one appended
AlarmEvent iff the value coerces (strings go through Python `int`, which
raises — and no event is recorded — on non-numeric strings); its type is
`alarm` exactly when the coerced value Python-equals `1` (so also for
`"01"`, `1.0` or `True`) and `cancel` otherwise; the recorded outdoor-IMEI
list equals the fan-out target list; and `{"bj": "1"}` behaves identically
to `{"bj": 1}`. -/
theorem claim_C2 (db : DB) (now : Nat) (imei : Str) (payload : Payload)
    (data : List (Str × JVal)) (v v' : JVal) (dev : Device)
    (hfind : db.devices.find? (fun d => decide (d.imei = imei)) = some dev)
    (hp : payload.parsed = some data)
    (hb : pyFalsy dev.station_id = false)
    (ho : outdoorIMEIs db dev.station_id ≠ [])
    (hbj : lookupKey data bjKey = some v)
    (hco : bjCoerce v = some v') :
    (handle_indoor_message db now imei payload).db.alarm_logs =
      db.alarm_logs ++
        [bjAlarmRow imei dev.station_id
          (if pyEqOne v' then AlarmType.alarm else AlarmType.cancel)
          (outdoorIMEIs db dev.station_id)] ∧
    (handle_indoor_message db now imei payload).publishes =
      (outdoorIMEIs db dev.station_id).map
        (fun t => (OUTDOOR_SUB ++ t, payload.raw)) ∧
    handle_indoor_message db now imei
        { raw := payload.raw, parsed := some [(bjKey, JVal.jstr ['1'])] } =
      handle_indoor_message db now imei
        { raw := payload.raw, parsed := some [(bjKey, JVal.jint 1)] } := by
  rw [handle_indoor_run_eq db now imei payload data dev hfind hp hb ho]
  refine ⟨?_, ?_, ?_⟩
  · simp [indoorBoundRun, bjAlarmRows, hbj, hco]
  · simp [indoorBoundRun]
  · rfl

/-- C2 (witness): `{"bj": 0}` from the bound indoor device appends exactly
one `cancel` event recording the forwarded outdoor set. -/
theorem claim_C2_witness :
    (exDB.devices.find? (fun d => decide (d.imei = imeiA)) = some devI ∧
      ({ raw := ['z'], parsed := some [(bjKey, JVal.jint 0)] } : Payload).parsed =
        some [(bjKey, JVal.jint 0)] ∧
      pyFalsy devI.station_id = false ∧
      outdoorIMEIs exDB devI.station_id ≠ [] ∧
      lookupKey [(bjKey, JVal.jint 0)] bjKey = some (JVal.jint 0) ∧
      bjCoerce (JVal.jint 0) = some (JVal.jint 0)) ∧
    ((handle_indoor_message exDB 7 imeiA
        { raw := ['z'], parsed := some [(bjKey, JVal.jint 0)] }).db.alarm_logs =
      exDB.alarm_logs ++
        [bjAlarmRow imeiA devI.station_id
          (if pyEqOne (JVal.jint 0) then AlarmType.alarm else AlarmType.cancel)
          (outdoorIMEIs exDB devI.station_id)] ∧
    (handle_indoor_message exDB 7 imeiA
        { raw := ['z'], parsed := some [(bjKey, JVal.jint 0)] }).publishes =
      (outdoorIMEIs exDB devI.station_id).map (fun t => (OUTDOOR_SUB ++ t, ['z'])) ∧
    handle_indoor_message exDB 7 imeiA
        { raw := ['z'], parsed := some [(bjKey, JVal.jstr ['1'])] } =
      handle_indoor_message exDB 7 imeiA
        { raw := ['z'], parsed := some [(bjKey, JVal.jint 1)] }) :=
  ⟨⟨by decide, rfl, by decide, by decide, by decide, by decide⟩,
    claim_C2 exDB 7 imeiA { raw := ['z'], parsed := some [(bjKey, JVal.jint 0)] }
      [(bjKey, JVal.jint 0)] (JVal.jint 0) (JVal.jint 0) devI
      (by decide) rfl (by decide) (by decide) (by decide) (by decide)⟩

/-! ## Claim C3 — alarm/forward transaction boundary -/

/-- C3 (counterexample): for a qualifying alarm message there is a committed
snapshot (the commit at line 166) that already contains the forward CommLog
row while the alarm table is still empty — the AlarmEvent is only committed
afterwards (line 183), in a separate transaction. -/
theorem claim_C3_counterexample :
    (handle_indoor_message exDB 3 imeiA
        { raw := ['x'], parsed := some [(bjKey, JVal.jint 1)] }).db.alarm_logs.length = 1 ∧
    ∃ s ∈ (handle_indoor_message exDB 3 imeiA
        { raw := ['x'], parsed := some [(bjKey, JVal.jint 1)] }).snapshots,
      (s.comm_logs.filter (fun l => decide (l.direction = Direction.forward))).length = 1 ∧
      s.alarm_logs = [] := by
  refine ⟨by decide, by decide⟩

/-- C3 (amended): the AlarmEvent of a qualifying message is created at most
once — the final state appends exactly one row — but in a *separate, later
transaction* than the forward records: the snapshot committed immediately
before the final one already holds the receive and all forward rows (the full
final CommLog state) while its alarm table is still the pre-message one. -/
theorem claim_C3 (db : DB) (now : Nat) (imei : Str) (payload : Payload)
    (data : List (Str × JVal)) (v v' : JVal) (dev : Device)
    (hfind : db.devices.find? (fun d => decide (d.imei = imei)) = some dev)
    (hp : payload.parsed = some data)
    (hb : pyFalsy dev.station_id = false)
    (ho : outdoorIMEIs db dev.station_id ≠ [])
    (hbj : lookupKey data bjKey = some v)
    (hco : bjCoerce v = some v') :
    ∃ s2 s3 s4,
      (handle_indoor_message db now imei payload).snapshots =
        [s2, s3, s4, (handle_indoor_message db now imei payload).db] ∧
      s4.comm_logs = (handle_indoor_message db now imei payload).db.comm_logs ∧
      s4.comm_logs = db.comm_logs ++ [indoorReceiveRow imei payload.raw dev.station_id] ++
        (outdoorIMEIs db dev.station_id).map
          (fun t => indoorForwardRow imei t payload.raw dev.station_id) ∧
      s4.alarm_logs = db.alarm_logs ∧
      (handle_indoor_message db now imei payload).db.alarm_logs =
        db.alarm_logs ++
          [bjAlarmRow imei dev.station_id
            (if pyEqOne v' then AlarmType.alarm else AlarmType.cancel)
            (outdoorIMEIs db dev.station_id)] := by
  rw [handle_indoor_run_eq db now imei payload data dev hfind hp hb ho]
  simp only [indoorBoundRun, bjAlarmRows, hbj, hco]
  rw [if_neg (show ¬([bjAlarmRow imei dev.station_id
      (if pyEqOne v' then AlarmType.alarm else AlarmType.cancel)
      (outdoorIMEIs db dev.station_id)] = ([] : List AlarmLog)) by simp)]
  exact ⟨_, _, _, rfl, rfl, rfl, rfl, trivial⟩

/-- C3 (witness): the single-outdoor station fixture with `{"bj": 1}`. -/
theorem claim_C3_witness :
    (exDB.devices.find? (fun d => decide (d.imei = imeiA)) = some devI ∧
      ({ raw := ['x'], parsed := some [(bjKey, JVal.jint 1)] } : Payload).parsed =
        some [(bjKey, JVal.jint 1)] ∧
      pyFalsy devI.station_id = false ∧
      outdoorIMEIs exDB devI.station_id ≠ [] ∧
      lookupKey [(bjKey, JVal.jint 1)] bjKey = some (JVal.jint 1) ∧
      bjCoerce (JVal.jint 1) = some (JVal.jint 1)) ∧
    (∃ s2 s3 s4,
      (handle_indoor_message exDB 3 imeiA
          { raw := ['x'], parsed := some [(bjKey, JVal.jint 1)] }).snapshots =
        [s2, s3, s4, (handle_indoor_message exDB 3 imeiA
          { raw := ['x'], parsed := some [(bjKey, JVal.jint 1)] }).db] ∧
      s4.comm_logs = (handle_indoor_message exDB 3 imeiA
          { raw := ['x'], parsed := some [(bjKey, JVal.jint 1)] }).db.comm_logs ∧
      s4.comm_logs = exDB.comm_logs ++ [indoorReceiveRow imeiA ['x'] devI.station_id] ++
        (outdoorIMEIs exDB devI.station_id).map
          (fun t => indoorForwardRow imeiA t ['x'] devI.station_id) ∧
      s4.alarm_logs = exDB.alarm_logs ∧
      (handle_indoor_message exDB 3 imeiA
          { raw := ['x'], parsed := some [(bjKey, JVal.jint 1)] }).db.alarm_logs =
        exDB.alarm_logs ++
          [bjAlarmRow imeiA devI.station_id
            (if pyEqOne (JVal.jint 1) then AlarmType.alarm else AlarmType.cancel)
            (outdoorIMEIs exDB devI.station_id)]) :=
  ⟨⟨by decide, rfl, by decide, by decide, by decide, by decide⟩,
    claim_C3 exDB 3 imeiA { raw := ['x'], parsed := some [(bjKey, JVal.jint 1)] }
      [(bjKey, JVal.jint 1)] (JVal.jint 1) (JVal.jint 1) devI
      (by decide) rfl (by decide) (by decide) (by decide) (by decide)⟩

/-! ## Claim C9 — concurrent first contact -/

/-- The fresh row built by `auto_register_device` (lines 266–271). -/
def newDevice (now : Nat) (imei : Str) (t : DeviceClass) : Device :=
  { imei := imei, type := t, name := autoName imei, station_id := none,
    last_seen := some now, vbat := none }

/-- The storage layer's INSERT under the unique constraint on `Device.imei`
(`models.py` line 97, `unique=True`): inserting a row whose IMEI already
exists fails — the database raises an IntegrityError, modelled as
`Except.error`. -/
def tryInsertDevice (db : DB) (d : Device) : Except Unit DB :=
  if db.devices.any (fun x => decide (x.imei = d.imei)) then Except.error ()
  else Except.ok { db with devices := db.devices ++ [d] }

/-- The race interleaving of two concurrent `auto_register_device` calls for
the same IMEI in which both lookups (line 262) run before either insert
commits.  Each thread follows lines 262–274 of the source: look up, and
insert-and-commit when absent.  When both lookups miss, thread A's
insert-commit succeeds and thread B's violates the unique constraint and
raises — `auto_register_device` has no conflict handler, so B's outcome is
the propagated error (`Except.error`), not a re-read of the row.  Returns
the final store and each thread's outcome. -/
def raceFirstContact (db : DB) (now : Nat) (imei : Str) (t : DeviceClass) :
    DB × Except Unit Device × Except Unit Device :=
  match db.devices.find? (fun d => decide (d.imei = imei)) with
  | some d => (db, Except.ok d, Except.ok d)
  | none =>
    match tryInsertDevice db (newDevice now imei t) with
    | Except.error _ => (db, Except.error (), Except.error ())
    | Except.ok db1 =>
      match tryInsertDevice db1 (newDevice now imei t) with
      | Except.error _ => (db1, Except.ok (newDevice now imei t), Except.error ())
      | Except.ok db2 =>
        (db2, Except.ok (newDevice now imei t), Except.ok (newDevice now imei t))

/-- C9 (counterexample): under concurrent first contact the store does end up
with exactly one row (the unique constraint holds), but the losing thread's
insert conflict is *not* treated as a retry-as-a-read: it surfaces as an
error to the caller of `auto_register_device` (caught only by `on_message`'s
blanket `except`, aborting that message's processing) instead of returning
the existing row. -/
theorem claim_C9_counterexample :
    ((raceFirstContact { devices := [], comm_logs := [], alarm_logs := [] }
        0 imeiA DeviceClass.indoor).1.devices.filter
      (fun d => decide (d.imei = imeiA))).length = 1 ∧
    (raceFirstContact { devices := [], comm_logs := [], alarm_logs := [] }
        0 imeiA DeviceClass.indoor).2.2 = Except.error () := by
  refine ⟨by decide, rfl⟩

/-- C9 (amended): for a previously unknown IMEI, the both-lookups-first race
interleaving yields exactly one new Device row (with the observed class and
null station binding — the unique constraint prevents the duplicate), and the
winning thread gets the row; but the losing thread's insert conflict is
surfaced as an error — the code performs no retry-as-a-read. -/
theorem claim_C9 (db : DB) (now : Nat) (imei : Str) (t : DeviceClass)
    (hfind : db.devices.find? (fun d => decide (d.imei = imei)) = none) :
    (raceFirstContact db now imei t).1.devices =
      db.devices ++ [newDevice now imei t] ∧
    (raceFirstContact db now imei t).1.devices.filter
      (fun d => decide (d.imei = imei)) = [newDevice now imei t] ∧
    (raceFirstContact db now imei t).2.1 = Except.ok (newDevice now imei t) ∧
    (raceFirstContact db now imei t).2.2 = Except.error () := by
  have hnm : ∀ d, d ∈ db.devices → ¬(d.imei = imei) := by
    intro d hd
    have := List.find?_eq_none.mp hfind d hd
    simpa using this
  have hany : db.devices.any (fun x => decide (x.imei = imei)) = false := by
    rw [List.any_eq_false]
    intro d hd
    simpa using hnm d hd
  have hflt : db.devices.filter (fun d => decide (d.imei = imei)) = [] := by
    rw [List.filter_eq_nil_iff]
    intro d hd
    simpa using hnm d hd
  have hins1 : tryInsertDevice db (newDevice now imei t) =
      Except.ok { db with devices := db.devices ++ [newDevice now imei t] } := by
    simp only [tryInsertDevice, newDevice, hany]
    rfl
  have hins2 : tryInsertDevice
      { db with devices := db.devices ++ [newDevice now imei t] }
      (newDevice now imei t) = Except.error () := by
    simp [tryInsertDevice, newDevice]
  simp only [raceFirstContact, hfind, hins1, hins2]
  refine ⟨trivial, ?_, trivial, trivial⟩
  rw [List.filter_append, hflt]
  simp [newDevice]

/-- C9 (witness): first contact for an unknown IMEI in the single-station
store. -/
theorem claim_C9_witness :
    exDB.devices.find? (fun d => decide (d.imei = imeiC)) = none ∧
    ((raceFirstContact exDB 9 imeiC DeviceClass.outdoor).1.devices =
      exDB.devices ++ [newDevice 9 imeiC DeviceClass.outdoor] ∧
    (raceFirstContact exDB 9 imeiC DeviceClass.outdoor).1.devices.filter
      (fun d => decide (d.imei = imeiC)) = [newDevice 9 imeiC DeviceClass.outdoor] ∧
    (raceFirstContact exDB 9 imeiC DeviceClass.outdoor).2.1 =
      Except.ok (newDevice 9 imeiC DeviceClass.outdoor) ∧
    (raceFirstContact exDB 9 imeiC DeviceClass.outdoor).2.2 = Except.error ()) :=
  ⟨by decide, claim_C9 exDB 9 imeiC DeviceClass.outdoor (by decide)⟩

/-! ## Claim C10 — routing is determined by the topic prefix alone -/

/-- An IMEI whose stored row is `outdoor`-typed but bound to station 1 —
used to exercise a class mismatch. -/
def devXo : Device :=
  { imei := imeiA, type := DeviceClass.outdoor, name := [],
    station_id := some 1, last_seen := none, vbat := none }

/-- A store where the source IMEI's row is stored as `outdoor` although it
publishes on the indoor prefix. -/
def exDBmis : DB := { devices := [devXo, devO], comm_logs := [], alarm_logs := [] }

/-- C10: the dispatch of `on_message` and the class of the target set are
functions of the topic's publish prefix only, never of the stored class of
the source row: a message on the indoor publish prefix always runs the
indoor handler and fans out to the station's `outdoor`-typed devices (also
when the source row's stored class is `outdoor`), and a message on the
outdoor publish prefix always runs the outdoor handler and forwards to the
station's `indoor`-typed device (also when the source row's stored class is
`indoor`). -/
theorem claim_C10 (db : DB) (now : Nat) (imei : Str) (payload : Payload)
    (dev : Device) (tgt : Str) (data : List (Str × JVal)) :
    ('/' ∉ imei →
      on_message db now (INDOOR_PUB ++ imei) payload =
        handle_indoor_message db now imei payload ∧
      on_message db now (OUTDOOR_PUB ++ imei) payload =
        handle_outdoor_message db now imei payload) ∧
    (db.devices.find? (fun d => decide (d.imei = imei)) = some dev →
      dev.type = DeviceClass.outdoor →
      payload.parsed = some data →
      pyFalsy dev.station_id = false →
      outdoorIMEIs db dev.station_id ≠ [] →
      (handle_indoor_message db now imei payload).publishes =
        (outdoorIMEIs db dev.station_id).map
          (fun t => (OUTDOOR_SUB ++ t, payload.raw))) ∧
    (db.devices.find? (fun d => decide (d.imei = imei)) = some dev →
      dev.type = DeviceClass.indoor →
      pyFalsy dev.station_id = false →
      indoorTargetIMEI db dev.station_id = some tgt →
      (handle_outdoor_message db now imei payload).publishes =
        [(INDOOR_SUB ++ tgt, payload.raw)]) := by
  refine ⟨?_, ?_, ?_⟩
  · intro hsl
    have e1 : INDOOR_PUB ++ imei =
        ['/', 'A', 'I', 'R', '8', '0', '0', '0', '/', 'P', 'U', 'B'] ++ '/' :: imei := by
      simp [INDOOR_PUB]
    have e2 : OUTDOOR_PUB ++ imei =
        ['/', '7', '8', '0', 'E', 'H', 'V', '/', 'P', 'U', 'B'] ++ '/' :: imei := by
      simp [OUTDOOR_PUB]
    constructor
    · simp only [on_message, isPrefixOf_append_self, if_true, if_pos]
      rw [e1, lastSeg_append_of_not_mem _ imei hsl]
    · have hno : INDOOR_PUB.isPrefixOf (OUTDOOR_PUB ++ imei) = false := by
        simp [INDOOR_PUB, OUTDOOR_PUB, List.isPrefixOf]
      simp only [on_message, hno, Bool.false_eq_true, if_false,
        isPrefixOf_append_self, if_true, if_pos]
      rw [e2, lastSeg_append_of_not_mem _ imei hsl]
  · intro hfind hty hp hb ho
    rw [handle_indoor_run_eq db now imei payload data dev hfind hp hb ho]
    simp [indoorBoundRun]
  · intro hfind hty hb htgt
    rw [handle_outdoor_run_eq db now imei payload dev hfind hb]
    simp [outdoorBoundRun, htgt]

/-- C10 (witness): the prefix-dispatch equalities at a concrete IMEI; an
indoor-prefix message whose IMEI is stored `outdoor` still fanned out to the
station's outdoor devices (here including itself); an outdoor-prefix message
whose IMEI is stored `indoor` still forwarded to the station's indoor device
(itself). -/
theorem claim_C10_witness :
    ('/' ∉ imeiA ∧
      (on_message exDB 5 (INDOOR_PUB ++ imeiA) { raw := ['x'], parsed := none } =
        handle_indoor_message exDB 5 imeiA { raw := ['x'], parsed := none } ∧
      on_message exDB 5 (OUTDOOR_PUB ++ imeiA) { raw := ['x'], parsed := none } =
        handle_outdoor_message exDB 5 imeiA { raw := ['x'], parsed := none })) ∧
    ((exDBmis.devices.find? (fun d => decide (d.imei = imeiA)) = some devXo ∧
      devXo.type = DeviceClass.outdoor ∧
      pyFalsy devXo.station_id = false ∧
      outdoorIMEIs exDBmis devXo.station_id ≠ []) ∧
      (handle_indoor_message exDBmis 5 imeiA { raw := ['x'], parsed := some [] }).publishes =
        (outdoorIMEIs exDBmis devXo.station_id).map
          (fun t => (OUTDOOR_SUB ++ t, ['x']))) ∧
    ((exDB.devices.find? (fun d => decide (d.imei = imeiA)) = some devI ∧
      devI.type = DeviceClass.indoor ∧
      pyFalsy devI.station_id = false ∧
      indoorTargetIMEI exDB devI.station_id = some imeiA) ∧
      (handle_outdoor_message exDB 5 imeiA { raw := ['x'], parsed := none }).publishes =
        [(INDOOR_SUB ++ imeiA, ['x'])]) :=
  ⟨⟨by decide,
      (claim_C10 exDB 5 imeiA { raw := ['x'], parsed := none } devI imeiA []).1
        (by decide)⟩,
    ⟨⟨by decide, by decide, by decide, by decide⟩,
      (claim_C10 exDBmis 5 imeiA { raw := ['x'], parsed := some [] } devXo imeiA []).2.1
        (by decide) (by decide) rfl (by decide) (by decide)⟩,
    ⟨⟨by decide, by decide, by decide, by decide⟩,
      (claim_C10 exDB 5 imeiA { raw := ['x'], parsed := none } devI imeiA []).2.2
        (by decide) (by decide) (by decide) (by decide)⟩⟩
